import Mathlib

/-!
Shallow embedding of the reconciliation logic of the ansible-ovh-dns modules.

Embedded source:
* `ovh_dns.py`, function `main` (lines 194-347): the decision and mutation
  logic for the states `absent`, `present` and `append`, operating on the
  record snapshot returned by `get_domain_records`.
* `ovh_ip_loadbalancing_backend.py`, function `waitForNoTask`
  (lines 96-98): the pending-task polling barrier.

Modelling conventions:
* The record snapshot is an association list `List (Nat × RemoteRecord)` in
  provider order (a Python dict preserves insertion order; iteration and
  `dict.copy`/`pop` filtering preserve it).
* Mutating provider calls (`client.delete`, `client.post` on a record or
  refresh endpoint) are collected in order into a trace `List Op`; read-only
  calls (`client.get`) are not part of the trace.
* `module.exit_json` / `module.fail_json` become the `ExitKind` of the run.
* Python string `.lower()` is modelled on the character list of the string
  (`Char.toLower`), which agrees with Python on ASCII data.
* `re.match(pat, s, re.IGNORECASE)` is modelled for patterns free of regex
  metacharacters: it succeeds iff the lowered pattern is a prefix of the
  lowered subject (`re.match` anchors at the start only).  The anchored
  pattern built by the source, `"^" + name + "$"`, becomes a case-insensitive
  full-string comparison.  All claims use metacharacter-free patterns.
-/

/-- One DNS record of the snapshot fetched by `get_domain_records`:
the fields of the per-id info dict that `main` reads. -/
structure RemoteRecord where
  fieldType : String
  subDomain : String
  target : String
  ttl : Int
deriving DecidableEq

/-- The module parameters of `ovh_dns.py` (its `argument_spec`), plus the
Ansible check mode flag.  `removes`, `replace` and `value` default to
`None` (here `none`); `ttl` defaults to 3600; `create` defaults to false. -/
structure Params where
  domain : String
  name : String
  state : String
  fieldtype : Option String
  removes : Option String
  replace : Option String
  value : Option String
  create : Bool
  ttl : Int
  checkMode : Bool
deriving DecidableEq

/-- A mutating provider call issued by `main`. -/
inductive Op where
  | deleteRecord (id : Nat)
  | createRecord (fieldType subDomain target : String) (ttl : Int)
  | refresh
deriving DecidableEq

/-- One entry of the diff before/after lists (the record dicts the module
yaml-dumps into `results['diff']`). -/
structure DiffRec where
  domain : String
  fieldType : String
  subDomain : String
  target : String
  ttl : Int
deriving DecidableEq

/-- How the run ends: `module.exit_json(changed=...)` or
`module.fail_json(msg=...)`. -/
inductive ExitKind where
  | ok (changed : Bool)
  | failed (msg : String)
deriving DecidableEq

/-- Observable outcome of one `main` invocation: exit status, the diff
before/after record lists (empty when not set), and the ordered trace of
mutating provider calls. -/
structure RunResult where
  exit : ExitKind
  diffBefore : List DiffRec
  diffAfter : List DiffRec
  ops : List Op
deriving DecidableEq

/-- Python truthiness of an optional string parameter: `None` and the empty
string are falsy. -/
def optTruthy : Option String → Bool
  | none => false
  | some s => !s.isEmpty

/-- Lowercase a character list (Python `str.lower()` on ASCII data). -/
def lowerChars : List Char → List Char
  | [] => []
  | c :: cs => c.toLower :: lowerChars cs

/-- The lowered characters of a string: `s.lower()`. -/
def pyLower (s : String) : List Char := lowerChars s.data

/-- Python `a.lower() == b.lower()` (ovh_dns.py line 253). -/
def pyLowerEq (a b : String) : Bool := pyLower a == pyLower b

/-- Whether the first list is an initial segment of the second. -/
def listStarts : List Char → List Char → Bool
  | [], _ => true
  | _ :: _, [] => false
  | p :: ps, c :: cs => p == c && listStarts ps cs

/-- `re.match(pat, s, re.IGNORECASE)` for a metacharacter-free pattern:
case-insensitive prefix match. -/
def pyReMatchCI (pat s : String) : Bool := listStarts (pyLower pat) (pyLower s)

/-- `re.match("^" ++ name ++ "$", s, re.IGNORECASE)` for a metacharacter-free
name: case-insensitive full-string match (ovh_dns.py line 208). -/
def pyReFullMatchCI (name s : String) : Bool := pyLower name == pyLower s

/-- ovh_dns.py lines 203-218: in the `absent` branch, keep the records whose
`subDomain` matches the name regex (`removes` when truthy, else the anchored
name, both IGNORECASE) and whose `target` matches the value regex
(`targetval` when truthy, else `.*` which matches everything). -/
def absentFilter (removes : Option String) (name : String)
    (targetval : Option String) (records : List (Nat × RemoteRecord)) :
    List (Nat × RemoteRecord) :=
  records.filter fun pr =>
    (if optTruthy removes then pyReMatchCI (removes.getD "") pr.2.subDomain
     else pyReFullMatchCI name pr.2.subDomain)
    &&
    (if optTruthy targetval then pyReMatchCI (targetval.getD "") pr.2.target
     else true)

/-- ovh_dns.py lines 258-269: the `oldrecords` dict of the `present` branch.
When `oldtargetval` (the `replace` parameter) is truthy, the records whose
target matches it (IGNORECASE, unanchored); otherwise all fetched records.
It stays empty for `append`. -/
def oldrecordsOf (state : String) (oldtargetval : Option String)
    (records : List (Nat × RemoteRecord)) : List (Nat × RemoteRecord) :=
  if state = "present" then
    if optTruthy oldtargetval then
      records.filter fun pr => pyReMatchCI (oldtargetval.getD "") pr.2.target
    else records
  else []

/-- The before-diff entry built from a fetched record (lines 225-231 and
297-303). -/
def toDiffRec (domain : String) (r : RemoteRecord) : DiffRec :=
  { domain := domain, fieldType := r.fieldType, subDomain := r.subDomain,
    target := r.target, ttl := r.ttl }

/-- ovh_dns.py `main`, lines 194-347, from the point where the record
snapshot has been fetched (the domain-existence check and the fetch itself
are provider reads outside the decision logic).  Faithful to the source's
control flow:

* `absent`: refuse when the name is empty and no `removes` pattern is given;
  exit unchanged on an empty snapshot; filter by the two IGNORECASE regexes;
  exit unchanged when the filter is empty; otherwise delete every filtered
  record then refresh once (mutations suppressed in check mode).
* `present`/`append`: fail when `value` or `type` is `None`; exit unchanged
  when some fetched record has `.lower()`-equal target and equal ttl; with a
  non-empty snapshot compute `oldrecords`; for `present` with truthy
  `replace`, empty `oldrecords` and `create` false, fail; when `oldrecords`
  is non-empty delete them all, create the new record, refresh; otherwise
  fall through to the add-record block, which creates only for `append` or
  an empty snapshot, else exits unchanged. -/
def ovhDnsMain (p : Params) (records : List (Nat × RemoteRecord)) : RunResult :=
  if p.state = "absent" then
    if p.name.isEmpty && !optTruthy p.removes then
      { exit := .failed "wildcard delete not allowed",
        diffBefore := [], diffAfter := [], ops := [] }
    else if records.isEmpty then
      { exit := .ok false, diffBefore := [], diffAfter := [], ops := [] }
    else
      let filtered := absentFilter p.removes p.name p.value records
      if filtered.isEmpty then
        { exit := .ok false, diffBefore := [], diffAfter := [], ops := [] }
      else
        { exit := .ok true,
          diffBefore := filtered.map fun pr => toDiffRec p.domain pr.2,
          diffAfter := [],
          ops := if p.checkMode then []
                 else (filtered.map fun pr => Op.deleteRecord pr.1) ++ [Op.refresh] }
  else if p.state = "present" ∨ p.state = "append" then
    match p.value, p.fieldtype with
    | none, _ =>
      { exit := .failed "Did not specify a value",
        diffBefore := [], diffAfter := [], ops := [] }
    | some _, none =>
      { exit := .failed "Did not specify a type",
        diffBefore := [], diffAfter := [], ops := [] }
    | some tv, some ft =>
      if records.any (fun pr => pyLowerEq pr.2.target tv && pr.2.ttl == p.ttl) then
        { exit := .ok false, diffBefore := [], diffAfter := [], ops := [] }
      else if !records.isEmpty then
        let oldrecords := oldrecordsOf p.state p.replace records
        if p.state = "present" && optTruthy p.replace && oldrecords.isEmpty
            && !p.create then
          { exit := .failed "Old record not match, use append ?",
            diffBefore := [], diffAfter := [], ops := [] }
        else if !oldrecords.isEmpty then
          { exit := .ok true,
            diffBefore := oldrecords.map fun pr => toDiffRec p.domain pr.2,
            diffAfter := [⟨p.domain, ft, p.name, tv, p.ttl⟩],
            ops := if p.checkMode then []
                   else (oldrecords.map fun pr => Op.deleteRecord pr.1)
                        ++ [Op.createRecord ft p.name tv p.ttl, Op.refresh] }
        else if p.state = "append" then
          { exit := .ok true,
            diffBefore := [],
            diffAfter := [⟨p.domain, ft, p.name, tv, p.ttl⟩],
            ops := if p.checkMode then []
                   else [Op.createRecord ft p.name tv p.ttl, Op.refresh] }
        else
          { exit := .ok false, diffBefore := [], diffAfter := [], ops := [] }
      else
        { exit := .ok true,
          diffBefore := [],
          diffAfter := [⟨p.domain, ft, p.name, tv, p.ttl⟩],
          ops := if p.checkMode then []
                 else [Op.createRecord ft p.name tv p.ttl, Op.refresh] }
  else
    { exit := .failed "Internal ovh_dns module error",
      diffBefore := [], diffAfter := [], ops := [] }

/-- Events observable from the `waitForNoTask` loop: a read-only poll of the
pending-task list, a one-time-unit sleep, or a mutating provider call (the
loop body contains none; the constructor exists so that their absence is a
statement about the trace, not about the type). -/
inductive WEvent where
  | poll
  | sleep
  | mutate
deriving DecidableEq

/-- ovh_ip_loadbalancing_backend.py lines 96-98:

    while len(client.get('/ip/loadBalancing/{}/task'.format(name))) > 0:
        time.sleep(1)

`polls k` is the pending-task list the provider returns at the k-th poll.
The loop is unbounded in the source; `fuel` bounds the number of iterations
modelled, with `none` meaning the loop has not terminated within `fuel`
polls.  The result is the trace of the loop's events. -/
def waitForNoTask (polls : Nat → List Nat) : Nat → Nat → Option (List WEvent)
  | 0, _ => none
  | fuel + 1, i =>
    if (polls i).length > 0 then
      (waitForNoTask polls fuel (i + 1)).map fun tr => WEvent.poll :: WEvent.sleep :: tr
    else some [WEvent.poll]

/-- A non-nil list has `isEmpty = false`. -/
theorem isEmpty_false_of_ne_nil {α : Type} {l : List α} (h : l ≠ []) :
    l.isEmpty = false := by
  cases l with
  | nil => exact absurd rfl h
  | cons a t => rfl

/-- C1: a `present` or `append` invocation whose fetched snapshot contains a
record with `.lower()`-equal target and equal ttl (the desired ttl, 3600
when defaulted) exits with changed=false and issues no mutating provider
call (no create, delete or refresh). -/
theorem c1_noop_on_matching_record (p : Params) (records : List (Nat × RemoteRecord))
    (tv ft : String)
    (hstate : p.state = "present" ∨ p.state = "append")
    (hv : p.value = some tv) (hf : p.fieldtype = some ft)
    (hex : records.any (fun pr => pyLowerEq pr.2.target tv && pr.2.ttl == p.ttl) = true) :
    (ovhDnsMain p records).exit = ExitKind.ok false ∧ (ovhDnsMain p records).ops = [] := by
  rcases hstate with h | h <;> simp [ovhDnsMain, h, hv, hf, hex]

def c1Params : Params :=
  { domain := "example.com", name := "db1", state := "present",
    fieldtype := some "A", removes := none, replace := none,
    value := some "10.10.10.10", create := false, ttl := 3600, checkMode := false }

def c1Records : List (Nat × RemoteRecord) :=
  [(7, { fieldType := "A", subDomain := "db1", target := "10.10.10.10", ttl := 3600 })]

/-- Witness for C1: the end-to-end scenario-2 zone. -/
theorem c1_noop_on_matching_record_witness :
    (ovhDnsMain c1Params c1Records).exit = ExitKind.ok false ∧
      (ovhDnsMain c1Params c1Records).ops = [] :=
  c1_noop_on_matching_record c1Params c1Records "10.10.10.10" "A"
    (Or.inl rfl) rfl rfl (by decide)

/-- C3: an `absent` invocation whose name is the all-records wildcard (the
empty name) with no `removes` selection pattern and no target value always
fails with the wildcard-delete message and issues no delete, whatever the
snapshot holds. -/
theorem c3_wildcard_delete_refused (p : Params) (records : List (Nat × RemoteRecord))
    (hstate : p.state = "absent") (hname : p.name = "")
    (hrm : optTruthy p.removes = false) (hv : optTruthy p.value = false) :
    (ovhDnsMain p records).exit = ExitKind.failed "wildcard delete not allowed" ∧
      (ovhDnsMain p records).ops = [] := by
  simp [ovhDnsMain, hstate, hname, hrm, String.isEmpty]

def c3Params : Params :=
  { domain := "example.com", name := "", state := "absent",
    fieldtype := none, removes := none, replace := none,
    value := none, create := false, ttl := 3600, checkMode := false }

def c3Records : List (Nat × RemoteRecord) :=
  [(1, { fieldType := "A", subDomain := "db1", target := "10.10.10.10", ttl := 3600 }),
   (2, { fieldType := "NS", subDomain := "", target := "dns.example.com.", ttl := 3600 })]

/-- Witness for C3: a wildcard delete against a non-empty zone is refused. -/
theorem c3_wildcard_delete_refused_witness :
    (ovhDnsMain c3Params c3Records).exit = ExitKind.failed "wildcard delete not allowed" ∧
      (ovhDnsMain c3Params c3Records).ops = [] :=
  c3_wildcard_delete_refused c3Params c3Records rfl rfl rfl rfl

/-- C7: an `absent` invocation that passes the wildcard guard and whose
filtered candidate set is empty exits with changed=false — never a failure —
and issues no delete and no zone refresh. -/
theorem c7_absent_empty_noop (p : Params) (records : List (Nat × RemoteRecord))
    (hstate : p.state = "absent")
    (hguard : (p.name.isEmpty && !optTruthy p.removes) = false)
    (hfil : absentFilter p.removes p.name p.value records = []) :
    (ovhDnsMain p records).exit = ExitKind.ok false ∧ (ovhDnsMain p records).ops = [] := by
  cases hrec : records.isEmpty
  · simp [ovhDnsMain, hstate, hguard, hrec, hfil]
  · simp [ovhDnsMain, hstate, hguard, hrec]

def c7Params : Params :=
  { domain := "example.com", name := "dbprod", state := "absent",
    fieldtype := some "CNAME", removes := none, replace := none,
    value := some "db1", create := false, ttl := 3600, checkMode := false }

def c7Records : List (Nat × RemoteRecord) :=
  [(3, { fieldType := "CNAME", subDomain := "www", target := "web1", ttl := 3600 })]

/-- Witness for C7: end-to-end scenario 3, deleting a record that is not
there is a no-op. -/
theorem c7_absent_empty_noop_witness :
    (ovhDnsMain c7Params c7Records).exit = ExitKind.ok false ∧
      (ovhDnsMain c7Params c7Records).ops = [] :=
  c7_absent_empty_noop c7Params c7Records rfl (by decide) (by decide)

/-- C10: for a `present` invocation with a non-empty snapshot, a truthy
`replace` value matching no fetched record's target, and `create=true`, the
module exits with changed=false and issues no create, delete or refresh:
the `create` flag only suppresses the old-record-not-found failure and never
causes a record to be created. -/
theorem c10_create_flag_never_creates (p : Params) (records : List (Nat × RemoteRecord))
    (tv ft ot : String)
    (hstate : p.state = "present") (hv : p.value = some tv) (hf : p.fieldtype = some ft)
    (hne : records ≠ [])
    (hr : p.replace = some ot) (hot : ot.isEmpty = false)
    (hfil : records.filter (fun pr => pyReMatchCI ot pr.2.target) = [])
    (hcr : p.create = true) :
    (ovhDnsMain p records).exit = ExitKind.ok false ∧ (ovhDnsMain p records).ops = [] := by
  have hre : records.isEmpty = false := isEmpty_false_of_ne_nil hne
  cases hany : records.any (fun pr => pyLowerEq pr.2.target tv && pr.2.ttl == p.ttl)
  · simp [ovhDnsMain, hstate, hv, hf, hany, hre, oldrecordsOf, optTruthy, hr, hot,
      hfil, hcr]
  · simp [ovhDnsMain, hstate, hv, hf, hany]

def c10Params : Params :=
  { domain := "example.com", name := "db1", state := "present",
    fieldtype := some "A", removes := none, replace := some "192.0.2.9",
    value := some "10.10.10.11", create := true, ttl := 3600, checkMode := false }

def c10Records : List (Nat × RemoteRecord) :=
  [(4, { fieldType := "A", subDomain := "db1", target := "10.10.10.10", ttl := 3600 })]

/-- Witness for C10: `create=true` with a non-matching `replace` changes
nothing and creates nothing. -/
theorem c10_create_flag_never_creates_witness :
    (ovhDnsMain c10Params c10Records).exit = ExitKind.ok false ∧
      (ovhDnsMain c10Params c10Records).ops = [] :=
  c10_create_flag_never_creates c10Params c10Records "10.10.10.11" "A" "192.0.2.9"
    rfl rfl rfl (by decide) rfl (by decide) (by decide) rfl

/-- C5: for a `present` invocation over a non-empty snapshot with no
target+ttl match, a truthy `replace` value matching no fetched record's
target, and `create=false`, the module fails with the old-record-not-found
message and issues no mutating call. -/
theorem c5_old_record_not_found (p : Params) (records : List (Nat × RemoteRecord))
    (tv ft ot : String)
    (hstate : p.state = "present") (hv : p.value = some tv) (hf : p.fieldtype = some ft)
    (hne : records ≠ [])
    (hnm : records.any (fun pr => pyLowerEq pr.2.target tv && pr.2.ttl == p.ttl) = false)
    (hr : p.replace = some ot) (hot : ot.isEmpty = false)
    (hfil : records.filter (fun pr => pyReMatchCI ot pr.2.target) = [])
    (hcr : p.create = false) :
    (ovhDnsMain p records).exit = ExitKind.failed "Old record not match, use append ?" ∧
      (ovhDnsMain p records).ops = [] := by
  have hre : records.isEmpty = false := isEmpty_false_of_ne_nil hne
  simp [ovhDnsMain, hstate, hv, hf, hnm, hre, oldrecordsOf, optTruthy, hr, hot,
    hfil, hcr]

def c5Params : Params :=
  { domain := "example.com", name := "db1", state := "present",
    fieldtype := some "A", removes := none, replace := some "192.0.2.9",
    value := some "10.10.10.11", create := false, ttl := 3600, checkMode := false }

def c5Records : List (Nat × RemoteRecord) :=
  [(4, { fieldType := "A", subDomain := "db1", target := "10.10.10.10", ttl := 3600 })]

/-- Witness for C5: a `replace` value that matches nothing fails the run. -/
theorem c5_old_record_not_found_witness :
    (ovhDnsMain c5Params c5Records).exit =
        ExitKind.failed "Old record not match, use append ?" ∧
      (ovhDnsMain c5Params c5Records).ops = [] :=
  c5_old_record_not_found c5Params c5Records "10.10.10.11" "A" "192.0.2.9"
    rfl rfl rfl (by decide) (by decide) rfl (by decide) (by decide) rfl

/-- C8: under check mode the module issues zero mutating provider calls in
every branch, while the exit status (hence the changed flag and any failure
message) and the diff are identical to those of a real run. -/
theorem c8_check_mode_no_mutation (p : Params) (records : List (Nat × RemoteRecord)) :
    (ovhDnsMain { p with checkMode := true } records).ops = [] ∧
    (ovhDnsMain { p with checkMode := true } records).exit =
      (ovhDnsMain { p with checkMode := false } records).exit ∧
    (ovhDnsMain { p with checkMode := true } records).diffBefore =
      (ovhDnsMain { p with checkMode := false } records).diffBefore ∧
    (ovhDnsMain { p with checkMode := true } records).diffAfter =
      (ovhDnsMain { p with checkMode := false } records).diffAfter := by
  obtain ⟨dom, nm, st, ftp, rm, rp, v, cr, t, cm⟩ := p
  cases v <;> cases ftp <;>
    simp only [ovhDnsMain] <;>
    split_ifs <;>
    simp_all

def c2Params : Params :=
  { domain := "example.com", name := "db1", state := "present",
    fieldtype := some "A", removes := none, replace := none,
    value := some "3.3.3.3", create := false, ttl := 3600, checkMode := false }

def c2Records : List (Nat × RemoteRecord) :=
  [(1, { fieldType := "A", subDomain := "db1", target := "1.1.1.1", ttl := 3600 }),
   (2, { fieldType := "A", subDomain := "db1", target := "2.2.2.2", ttl := 3600 })]

/-- C2 counterexample: two A records for the same name, a `present` request
with a fresh target and no `replace`: the module does not reject as
ambiguous — it exits changed=true after deleting BOTH records and creating
the new one. -/
theorem c2_counterexample :
    (ovhDnsMain c2Params c2Records).exit = ExitKind.ok true ∧
    (ovhDnsMain c2Params c2Records).ops =
      [Op.deleteRecord 1, Op.deleteRecord 2,
       Op.createRecord "A" "db1" "3.3.3.3" 3600, Op.refresh] := by decide

/-- C2 amended: for a `present` invocation with a non-empty snapshot and no
target+ttl match, the engine never rejects as ambiguous: with no `replace`
it deletes EVERY fetched candidate and creates the new record; a `replace`
matching exactly one candidate yields a replace touching exactly that
record. -/
theorem c2_amended_replace_all_or_matching (p : Params)
    (records : List (Nat × RemoteRecord)) (tv ft : String)
    (hstate : p.state = "present") (hv : p.value = some tv) (hf : p.fieldtype = some ft)
    (hne : records ≠ [])
    (hnm : records.any (fun pr => pyLowerEq pr.2.target tv && pr.2.ttl == p.ttl) = false)
    (hcm : p.checkMode = false) :
    (p.replace = none →
      (ovhDnsMain p records).exit = ExitKind.ok true ∧
      (ovhDnsMain p records).ops =
        (records.map fun pr => Op.deleteRecord pr.1)
          ++ [Op.createRecord ft p.name tv p.ttl, Op.refresh]) ∧
    (∀ (ot : String) (id : Nat) (r : RemoteRecord),
      p.replace = some ot → ot.isEmpty = false →
      records.filter (fun pr => pyReMatchCI ot pr.2.target) = [(id, r)] →
      (ovhDnsMain p records).exit = ExitKind.ok true ∧
      (ovhDnsMain p records).ops =
        [Op.deleteRecord id, Op.createRecord ft p.name tv p.ttl, Op.refresh]) := by
  have hre : records.isEmpty = false := isEmpty_false_of_ne_nil hne
  constructor
  · intro hr
    simp [ovhDnsMain, hstate, hv, hf, hnm, hre, oldrecordsOf, optTruthy, hr, hcm]
  · intro ot id r hr hot hfil
    simp [ovhDnsMain, hstate, hv, hf, hnm, hre, oldrecordsOf, optTruthy, hr, hot,
      hfil, hcm]

/-- Witness for the amended C2: without `replace` both records of the
ambiguous pair are deleted; with `replace="1.1.1.1"` exactly record 1 is. -/
theorem c2_amended_replace_all_or_matching_witness :
    ((ovhDnsMain c2Params c2Records).ops =
      [Op.deleteRecord 1, Op.deleteRecord 2,
       Op.createRecord "A" "db1" "3.3.3.3" 3600, Op.refresh]) ∧
    ((ovhDnsMain { c2Params with replace := some "1.1.1.1" } c2Records).ops =
      [Op.deleteRecord 1, Op.createRecord "A" "db1" "3.3.3.3" 3600, Op.refresh]) :=
  ⟨((c2_amended_replace_all_or_matching c2Params c2Records "3.3.3.3" "A"
      rfl rfl rfl (by decide) (by decide) rfl).1 rfl).2,
   ((c2_amended_replace_all_or_matching { c2Params with replace := some "1.1.1.1" }
      c2Records "3.3.3.3" "A" rfl rfl rfl (by decide) (by decide) rfl).2 "1.1.1.1" 1
      { fieldType := "A", subDomain := "db1", target := "1.1.1.1", ttl := 3600 }
      rfl (by decide) (by decide)).2⟩

def c4Params : Params :=
  { domain := "example.com", name := "Db1", state := "absent",
    fieldtype := some "A", removes := none, replace := none,
    value := none, create := false, ttl := 3600, checkMode := false }

def c4Records : List (Nat × RemoteRecord) :=
  [(1, { fieldType := "A", subDomain := "db1", target := "10.10.10.10", ttl := 3600 })]

/-- C4 counterexample: desired name "Db1" DOES match existing subdomain
"db1" — the absent invocation selects and deletes that record, because the
source compiles the name regex with IGNORECASE; name matching is not
case-sensitive. -/
theorem c4_counterexample :
    (ovhDnsMain c4Params c4Records).exit = ExitKind.ok true ∧
    (ovhDnsMain c4Params c4Records).ops = [Op.deleteRecord 1, Op.refresh] := by decide

/-- C4 amended: a desired target matches an existing record's target
case-insensitively (so the run is a no-op), and a desired name ALSO matches
an existing subdomain case-insensitively in the module's own matching (the
absent branch compiles the name pattern with IGNORECASE): a record whose
subdomain differs from the requested name only by case is selected and
deleted. -/
theorem c4_amended_both_case_insensitive :
    (∀ (p : Params) (records : List (Nat × RemoteRecord)) (tv ft : String)
      (id : Nat) (r : RemoteRecord),
      (p.state = "present" ∨ p.state = "append") →
      p.value = some tv → p.fieldtype = some ft →
      (id, r) ∈ records → pyLowerEq r.target tv = true → r.ttl = p.ttl →
      (ovhDnsMain p records).exit = ExitKind.ok false ∧
        (ovhDnsMain p records).ops = []) ∧
    (∀ (p : Params) (records : List (Nat × RemoteRecord)) (id : Nat) (r : RemoteRecord),
      p.state = "absent" → p.removes = none → p.value = none →
      p.name.isEmpty = false → p.checkMode = false →
      (id, r) ∈ records → pyReFullMatchCI p.name r.subDomain = true →
      Op.deleteRecord id ∈ (ovhDnsMain p records).ops) := by
  constructor
  · intro p records tv ft id r hstate hv hf hmem hlow httl
    have hex : records.any
        (fun pr => pyLowerEq pr.2.target tv && pr.2.ttl == p.ttl) = true := by
      refine List.any_eq_true.mpr ⟨(id, r), hmem, ?_⟩
      simp [hlow, httl]
    rcases hstate with h | h <;> simp [ovhDnsMain, h, hv, hf, hex]
  · intro p records id r hstate hrm hv hname hcm hmem hmatch
    have hre : records.isEmpty = false := by
      cases records with
      | nil => cases hmem
      | cons a t => rfl
    have hfmem : (id, r) ∈ absentFilter p.removes p.name p.value records := by
      unfold absentFilter
      refine List.mem_filter.mpr ⟨hmem, ?_⟩
      simp [hrm, hv, optTruthy, hmatch]
    have hfe : (absentFilter p.removes p.name p.value records).isEmpty = false := by
      cases hF : absentFilter p.removes p.name p.value records with
      | nil => rw [hF] at hfmem; cases hfmem
      | cons a t => rfl
    have hguard : (p.name.isEmpty && !optTruthy p.removes) = false := by
      simp [hname]
    have hin : Op.deleteRecord id ∈
        ((absentFilter p.removes p.name p.value records).map
          fun pr => Op.deleteRecord pr.1) ++ [Op.refresh] :=
      List.mem_append.mpr (Or.inl (List.mem_map.mpr ⟨(id, r), hfmem, rfl⟩))
    simpa [ovhDnsMain, hstate, hguard, hre, hfe, hcm] using hin

def c4PresentParams : Params :=
  { domain := "example.com", name := "db1", state := "present",
    fieldtype := some "A", removes := none, replace := none,
    value := some "DB1", create := false, ttl := 3600, checkMode := false }

def c4PresentRecords : List (Nat × RemoteRecord) :=
  [(1, { fieldType := "CNAME", subDomain := "dbprod", target := "db1", ttl := 3600 })]

/-- Witness for the amended C4: target "DB1" no-ops against an existing
"db1" target, and absent name "Db1" deletes existing subdomain "db1". -/
theorem c4_amended_both_case_insensitive_witness :
    ((ovhDnsMain c4PresentParams c4PresentRecords).ops = []) ∧
    (Op.deleteRecord 1 ∈ (ovhDnsMain c4Params c4Records).ops) :=
  ⟨(c4_amended_both_case_insensitive.1 c4PresentParams c4PresentRecords
      "DB1" "A" 1
      { fieldType := "CNAME", subDomain := "dbprod", target := "db1", ttl := 3600 }
      (Or.inl rfl) rfl rfl (by decide) (by decide) rfl).2,
   c4_amended_both_case_insensitive.2 c4Params c4Records 1
     { fieldType := "A", subDomain := "db1", target := "10.10.10.10", ttl := 3600 }
     rfl rfl rfl (by decide) rfl (by decide) (by decide)⟩

def c6Params : Params :=
  { domain := "example.com", name := "db1", state := "present",
    fieldtype := some "A", removes := none, replace := some "1.1.1.1",
    value := some "2.2.2.2", create := true, ttl := 3600, checkMode := false }

def c6Records : List (Nat × RemoteRecord) :=
  [(1, { fieldType := "A", subDomain := "db1", target := "1.1.1.1", ttl := 3600 })]

/-- C6 counterexample: with the duplicate-allow flag (`create`) set to true,
the replace still issues the delete of the old record BEFORE the create —
the flag does not flip the order of the mutating calls. -/
theorem c6_counterexample :
    c6Params.create = true ∧
    (ovhDnsMain c6Params c6Records).ops =
      [Op.deleteRecord 1, Op.createRecord "A" "db1" "2.2.2.2" 3600, Op.refresh] := by
  decide

/-- C6 amended: applying a replace always issues the deletes of all old
record ids first, then the single create, then one zone refresh — the same
order whatever the value of the duplicate-allow (`create`) flag. -/
theorem c6_amended_delete_always_first (p : Params)
    (records : List (Nat × RemoteRecord)) (tv ft : String)
    (hstate : p.state = "present") (hv : p.value = some tv) (hf : p.fieldtype = some ft)
    (hne : records ≠ [])
    (hnm : records.any (fun pr => pyLowerEq pr.2.target tv && pr.2.ttl == p.ttl) = false)
    (hold : oldrecordsOf p.state p.replace records ≠ [])
    (hcm : p.checkMode = false) :
    (ovhDnsMain p records).ops =
      ((oldrecordsOf p.state p.replace records).map fun pr => Op.deleteRecord pr.1)
        ++ [Op.createRecord ft p.name tv p.ttl, Op.refresh] := by
  have hre : records.isEmpty = false := isEmpty_false_of_ne_nil hne
  have holde : (oldrecordsOf p.state p.replace records).isEmpty = false :=
    isEmpty_false_of_ne_nil hold
  rw [hstate] at holde
  simp [ovhDnsMain, hstate, hv, hf, hnm, hre, holde, hcm]

/-- Witness for the amended C6: the counterexample run, with `create=true`,
issues exactly delete-then-create-then-refresh. -/
theorem c6_amended_delete_always_first_witness :
    (ovhDnsMain c6Params c6Records).ops =
      ((oldrecordsOf c6Params.state c6Params.replace c6Records).map
        fun pr => Op.deleteRecord pr.1)
        ++ [Op.createRecord "A" "db1" "2.2.2.2" 3600, Op.refresh] :=
  c6_amended_delete_always_first c6Params c6Records "2.2.2.2" "A"
    rfl rfl rfl (by decide) (by decide) (by decide) rfl

/-- The polling loop returns at the first empty poll: when the first `n`
polls all report pending tasks and poll `n` reports none, the loop's trace
is `n` (poll, sleep) rounds followed by the final poll, for any fuel above
`n`. -/
theorem waitForNoTask_first_empty (polls : Nat → List Nat) :
    ∀ (n fuel i : Nat), (∀ k, k < n → polls (i + k) ≠ []) → polls (i + n) = [] →
      n < fuel →
      waitForNoTask polls fuel i =
        some ((List.replicate n [WEvent.poll, WEvent.sleep]).flatten ++ [WEvent.poll]) := by
  intro n
  induction n with
  | zero =>
    intro fuel i _ hend hlt
    cases fuel with
    | zero => exact absurd hlt (Nat.not_lt_zero _)
    | succ f =>
      rw [Nat.add_zero] at hend
      simp [waitForNoTask, hend]
  | succ n ih =>
    intro fuel i hne hend hlt
    cases fuel with
    | zero => exact absurd hlt (Nat.not_lt_zero _)
    | succ f =>
      have h0 : polls i ≠ [] := by simpa using hne 0 (Nat.succ_pos n)
      have hlen : 0 < (polls i).length := List.length_pos.mpr h0
      have hrec := ih f (i + 1)
        (fun k hk => by
          have h := hne (k + 1) (Nat.succ_lt_succ hk)
          have e : i + (k + 1) = i + 1 + k := by omega
          rwa [e] at h)
        (by
          have e : i + (n + 1) = i + 1 + n := by omega
          rwa [e] at hend)
        (Nat.lt_of_succ_lt_succ hlt)
      simp [waitForNoTask, hlen, hrec, List.replicate_succ]

/-- Counting the polls of a completed barrier trace. -/
theorem count_poll_rounds (n : Nat) :
    ((List.replicate n [WEvent.poll, WEvent.sleep]).flatten
      ++ [WEvent.poll]).count WEvent.poll = n + 1 := by
  induction n with
  | zero => decide
  | succ n ih =>
    simp only [List.replicate_succ, List.flatten_cons, List.count_append] at ih ⊢
    simp_all [List.count_cons]
    omega

/-- The barrier trace never contains a mutating call. -/
theorem mutate_not_in_rounds (n : Nat) :
    WEvent.mutate ∉
      (List.replicate n [WEvent.poll, WEvent.sleep]).flatten ++ [WEvent.poll] := by
  intro hmem
  rcases List.mem_append.mp hmem with h | h
  · rcases List.mem_flatten.mp h with ⟨l, hl, hml⟩
    rcases List.eq_of_mem_replicate hl with rfl
    simp at hml
  · simp at h

/-- C9: while the provider reports pending jobs, the barrier sleeps one time
unit and re-polls, returning exactly at the first poll that observes an
empty list: the trace holds one poll per pending observation plus the final
empty poll, with one sleep between consecutive polls and no mutating call.
With 2 pending jobs at the first poll and none at the second, this gives
exactly 2 polls. -/
theorem c9_task_barrier (polls : Nat → List Nat) (fuel n : Nat)
    (hpend : ∀ k, k < n → polls k ≠ []) (hempty : polls n = [])
    (hfuel : n < fuel) :
    waitForNoTask polls fuel 0 =
      some ((List.replicate n [WEvent.poll, WEvent.sleep]).flatten ++ [WEvent.poll]) ∧
    ((List.replicate n [WEvent.poll, WEvent.sleep]).flatten
      ++ [WEvent.poll]).count WEvent.poll = n + 1 ∧
    WEvent.mutate ∉
      (List.replicate n [WEvent.poll, WEvent.sleep]).flatten ++ [WEvent.poll] := by
  refine ⟨?_, count_poll_rounds n, mutate_not_in_rounds n⟩
  have h := waitForNoTask_first_empty polls n fuel 0
    (fun k hk => by simpa using hpend k hk)
    (by simpa using hempty)
    hfuel
  exact h

/-- The scenario-4 provider: 2 pending jobs at the first poll, none later. -/
def c9Polls : Nat → List Nat := fun i => if i = 0 then [101, 102] else []

/-- Witness for C9: 2 pending jobs at the first poll, 0 at the second — the
barrier returns after exactly 2 polls (trace poll, sleep, poll), issuing no
mutating call. -/
theorem c9_task_barrier_witness :
    waitForNoTask c9Polls 2 0 = some [WEvent.poll, WEvent.sleep, WEvent.poll] ∧
    [WEvent.poll, WEvent.sleep, WEvent.poll].count WEvent.poll = 2 ∧
    WEvent.mutate ∉ [WEvent.poll, WEvent.sleep, WEvent.poll] := by
  have h := c9_task_barrier c9Polls 2 1
    (fun k hk => by
      have hk0 : k = 0 := by omega
      subst hk0
      decide)
    (by decide) (by omega)
  simpa [List.replicate] using h
